import Mathlib

/-!
# Tomahawk Twitter account: authentication state machine

A shallow embedding of `src/accounts/twitter/TwitterAccount.cpp`.

The account object is a record of its member variables.  Everything the member
functions do to the outside (objects they allocate, signals they emit, calls
into the SIP plugin, the info system and the credential verifier, slots they
queue on the event loop) is recorded in a `World` that is threaded through
every member function.

Conventions of the model:

* A `QWeakPointer< T >` member is an `Option`; `none` is the null pointer.
* Objects created with `new` receive consecutive object ids from
  `World.nextObj`.
* `qDebug()` / `tDebug()` output is not represented.
* `Q_ASSERT( TomahawkUtils::nam() != 0 )` states that the process-wide network
  access manager exists; the model takes it to exist, as the constructor (which
  uses it without any check) already does.
* `QVariant` values are the invalid variant, string variants and the variant
  holding the `double` NaN.  `QVariant::operator!=` is the comparison of the
  toolkit, `QVariant.ne`, which is not plain inequality: NaN is unequal to
  itself.  Variants of other kinds (finite numbers, lists, ...) need the number
  formatting and parsing of the toolkit and are not represented.
* The calls into `TwitterSipPlugin`, `InfoSystem` and the credential verifier
  are recorded as effects; what those classes do in turn is outside the
  translated file.  The `InfoPluginPtr` temporaries returned by `infoPlugin()`
  are treated as plain pointers.
-/

namespace Tomahawk.Accounts

/-! ## Toolkit values -/

/-- A `QVariant`: the invalid (default constructed) variant, a variant holding a
`QString`, or a variant holding the `double` NaN. -/
inductive QVariant where
  | invalid
  | string (s : String)
  | nan
deriving DecidableEq, Repr

/-- The conversion `QVariant::toString()`; the invalid variant converts to the
empty string and the NaN variant to "nan". -/
def QVariant.toString : QVariant → String
  | .invalid => ""
  | .string s => s
  | .nan => "nan"

/-- The comparison `QVariant::operator==` with the receiver on the left: when the
kinds differ the right operand is first converted to the kind of the left one
(which fails for and from the invalid variant), then the held values are
compared.  Two strings compare as strings; a string on the left equals the NaN
variant when it is the text that NaN converts to; NaN on the left is a `double`
comparison with NaN and therefore never holds, not even against NaN itself. -/
def QVariant.cmp : QVariant → QVariant → Bool
  | .invalid, .invalid => true
  | .string s, .string t => decide (s = t)
  | .string s, .nan => decide (s = "nan")
  | _, _ => false

/-- The comparison `QVariant::operator!=`, the negation of `operator==`. -/
def QVariant.ne (a b : QVariant) : Bool :=
  !(a.cmp b)

/-- A `QVariantHash` (`QHash< QString, QVariant >`): a finite map, given by its
lookup function. -/
structure QVariantHash where
  find : String → Option QVariant

namespace QVariantHash

/-- The default constructed hash. -/
def empty : QVariantHash := ⟨fun _ => none⟩

/-- The const `operator[]` (same as `value( key )`): the stored value, or a
default constructed `QVariant` when the key is missing. -/
def value (h : QVariantHash) (key : String) : QVariant :=
  (h.find key).getD QVariant.invalid

/-- Assignment through `hash[ key ] = v`. -/
def insert (h : QVariantHash) (key : String) (v : QVariant) : QVariantHash :=
  ⟨fun k => if k = key then some v else h.find k⟩

/-- Reading through the non-const `operator[]`: a missing key is first inserted
with a default constructed value.  Returns the value read and the hash as it
is afterwards. -/
def index (h : QVariantHash) (key : String) : QVariant × QVariantHash :=
  match h.find key with
  | some v => (v, h)
  | none => (QVariant.invalid, h.insert key QVariant.invalid)

end QVariantHash

/-- Identity of a heap object. -/
abbrev ObjId := Nat

/-- A value of the enumeration `Account::ConnectionState`, which is declared
outside the translated file and only passed through by it. -/
abbrev ConnectionState := Nat

/-- A `QByteArray`: a sequence of bytes. -/
abbrev QByteArray := List Nat

/-- The conversion `QString::toLatin1()`: every UTF-16 code unit above 0xFF
becomes a question mark (a character outside the basic plane is two units). -/
def toLatin1 (s : String) : QByteArray :=
  s.toList.flatMap fun c =>
    if c.toNat ≤ 255 then [c.toNat]
    else if c.toNat ≤ 65535 then [63]
    else [63, 63]

/-- The part of a `QTweetUser` the account reads. -/
structure QTweetUser where
  id : Int
  screenName : String
deriving DecidableEq, Repr

/-- A `TomahawkOAuthTwitter` object: its identity and the OAuth token pair set
on it. -/
structure TomahawkOAuthTwitter where
  obj : ObjId
  oauthToken : QByteArray
  oauthTokenSecret : QByteArray
deriving DecidableEq, Repr

/-- A `QTweetAccountVerifyCredentials` object: its identity and the OAuth
handle it was constructed with. -/
structure QTweetAccountVerifyCredentials where
  obj : ObjId
  oauthTwitter : Option TomahawkOAuthTwitter
deriving DecidableEq, Repr

/-- The two account type flags set by the constructor. -/
inductive AccountType where
  | StatusPushType
  | SipType
deriving DecidableEq, Repr

/-- A slot invocation queued on the event loop. -/
inductive Slot where
  | authenticateSlot
deriving DecidableEq, Repr

/-- What the account does to its surroundings, in program order. -/
inductive Effect where
  /-- The statement `new TwitterConfigWidget( this, 0 )`. -/
  | configWidgetCreated (o : ObjId)
  /-- The statement `new TomahawkOAuthTwitter( TomahawkUtils::nam(), this )`. -/
  | oauthCreated (o : ObjId)
  /-- The statement `delete m_twitterAuth.data()`. -/
  | oauthDeleted (o : ObjId)
  /-- The statement `new TwitterSipPlugin( this )`. -/
  | sipPluginCreated (o : ObjId)
  /-- The `connect` of the plugin signal `stateChanged` to the account signal
  `connectionStateChanged`. -/
  | stateChangedForwarded (o : ObjId)
  /-- The call `connectPlugin()` on the SIP plugin. -/
  | connectPlugin (o : ObjId)
  /-- The call `disconnectPlugin()` on the SIP plugin. -/
  | disconnectPlugin (o : ObjId)
  /-- The statement `new Tomahawk::InfoSystem::TwitterInfoPlugin( this )`. -/
  | infoPluginCreated (o : ObjId)
  /-- The call `moveToThread( workerThread )` on the info plugin. -/
  | movedToWorkerThread (o : ObjId)
  /-- The call `InfoSystem::addInfoPlugin`. -/
  | addInfoPlugin (o : ObjId)
  /-- The call `InfoSystem::removeInfoPlugin`. -/
  | removeInfoPlugin (o : ObjId)
  /-- The call `verify()` on a freshly created credential verifier. -/
  | verify (o : ObjId)
  /-- The signal `nowAuthenticated( m_twitterAuth, user )`. -/
  | nowAuthenticated (auth : Option TomahawkOAuthTwitter) (user : QTweetUser)
  /-- The signal `nowDeauthenticated()`. -/
  | nowDeauthenticated
  /-- The signal `configurationChanged()`. -/
  | configurationChanged
  /-- The call `syncConfig()` of the base class. -/
  | syncConfig
  /-- The call `sync()` of the base class. -/
  | sync
  /-- The call `saveCredentials( credentials )` of the base class. -/
  | saveCredentials
deriving DecidableEq, Repr

/-! ## The account and its surroundings -/

/-- The member variables of a `TwitterAccount`, those of the base class
`Account` that the translated file reads or writes included. -/
structure TwitterAccount where
  accountId : String
  accountServiceName : String
  types : List AccountType
  enabled : Bool
  configuration : QVariantHash
  accountFriendlyName : String
  m_isAuthenticated : Bool
  m_isAuthenticating : Bool
  m_credentials : QVariantHash
  m_configWidget : Option ObjId
  m_twitterAuth : Option TomahawkOAuthTwitter
  m_twitterSipPlugin : Option ObjId
  m_twitterInfoPlugin : Option ObjId

/-- An account together with the surroundings its member functions act on. -/
structure World where
  /-- The account object (`this`). -/
  self : TwitterAccount
  /-- The id the next `new` hands out. -/
  nextObj : ObjId
  /-- Whether `InfoSystem::instance()->workerThread()` is non-null. -/
  workerThread : Bool
  /-- What `connectionState()` of the SIP plugin with a given id returns. -/
  sipConnectionState : ObjId → ConnectionState
  /-- Slot invocations queued on the event loop, oldest first. -/
  eventLoop : List Slot
  /-- Credential verifiers whose `verify()` was called and whose `parsedUser`
  signal has not been delivered yet, oldest first. -/
  pendingVerifications : List QTweetAccountVerifyCredentials
  /-- Everything done to the surroundings so far, oldest first. -/
  trace : List Effect

/-- Record an effect. -/
def World.emit (e : Effect) (w : World) : World :=
  { w with trace := w.trace ++ [e] }

/-- The expression `new T( ... )`: hand out the next object id. -/
def World.allocObj (w : World) : ObjId × World :=
  (w.nextObj, { w with nextObj := w.nextObj + 1 })

/-- Reading `m_credentials[ key ]` inside a non-const member function. -/
def World.credentialsAt (key : String) (w : World) : QVariant × World :=
  ((w.self.m_credentials.index key).1,
   { w with self := { w.self with m_credentials := (w.self.m_credentials.index key).2 } })

/-- The effects recorded between an earlier world and a later one. -/
def effectsSince (w w' : World) : List Effect :=
  w'.trace.drop w.trace.length

/-! ## Base class accessors -/

/-- Modelled from the spec: `Account::configuration()` is declared in the base
class, outside the translated file; it reads the "persisted account
configuration", a variant-keyed hash. -/
def Account.configuration (w : World) : QVariantHash :=
  w.self.configuration

/-- Modelled from the spec: `Account::setConfiguration` is declared in the base
class, outside the translated file; it replaces the account configuration. -/
def Account.setConfiguration (config : QVariantHash) (w : World) : World :=
  { w with self := { w.self with configuration := config } }

/-- Modelled from the spec: `Account::enabled()` is declared in the base class,
outside the translated file; it reads the enabled flag of the account. -/
def Account.enabled (w : World) : Bool :=
  w.self.enabled

/-- Modelled from the spec: `Account::setAccountFriendlyName` is declared in the
base class, outside the translated file; it stores the display name. -/
def Account.setAccountFriendlyName (name : String) (w : World) : World :=
  { w with self := { w.self with accountFriendlyName := name } }

set_option linter.dupNamespace false

namespace TwitterAccount

/-! ## Member functions of `TwitterAccount` -/

/-- The constructor `TwitterAccount::TwitterAccount( accountId )`.  The base
class constructor loads `enabled`, the configuration and the friendly name
from the settings; they are parameters here, as is the state of the
surroundings at construction time. -/
def TwitterAccount (accountId : String) (enabled : Bool) (configuration : QVariantHash)
    (accountFriendlyName : String) (nextObj : ObjId) (workerThread : Bool)
    (sipConnectionState : ObjId → ConnectionState) : World :=
  { self :=
      { accountId := accountId
        accountServiceName := "Twitter"
        types := [AccountType.StatusPushType, AccountType.SipType]
        enabled := enabled
        configuration := configuration
        accountFriendlyName := accountFriendlyName
        m_isAuthenticated := false
        m_isAuthenticating := false
        m_credentials := QVariantHash.empty
        m_configWidget := some nextObj
        m_twitterAuth := some ⟨nextObj + 1, [], []⟩
        m_twitterSipPlugin := none
        m_twitterInfoPlugin := none }
    nextObj := nextObj + 2
    workerThread := workerThread
    sipConnectionState := sipConnectionState
    eventLoop := []
    pendingVerifications := []
    trace := [Effect.configWidgetCreated nextObj, Effect.oauthCreated (nextObj + 1)] }

/-- The slot `TwitterAccount::configDialogAuthedSignalSlot( authed )`. -/
def configDialogAuthedSignalSlot (authed : Bool) (w : World) : World :=
  let w1 : World := { w with self := { w.self with m_isAuthenticated := authed } }
  let r := w1.credentialsAt "username"
  let w2 : World :=
    if !r.1.toString.isEmpty then
      let r2 := r.2.credentialsAt "username"
      Account.setAccountFriendlyName ("@" ++ r2.1.toString) r2.2
    else r.2
  (w2.emit Effect.syncConfig).emit Effect.configurationChanged

/-- The function `TwitterAccount::authenticate()`: queue `authenticateSlot` on
the event loop (`QTimer::singleShot( 0, ... )`). -/
def authenticate (w : World) : World :=
  { w with eventLoop := w.eventLoop ++ [Slot.authenticateSlot] }

/-- The condition of the first `if` of `onCredentialsLoaded`, evaluated left to
right with the short-circuit rules of `&&` and `||`.  The incoming hash is
const; the stored one is read through the non-const `operator[]`. -/
def reloadCondition (credentials : QVariantHash) (w : World) : Bool × World :=
  if !(credentials.value "oauthtoken").toString.isEmpty
      && !(credentials.value "oauthtokensecret").toString.isEmpty then
    let r := w.credentialsAt "oauthtoken"
    if QVariant.ne r.1 (credentials.value "oauthtoken") then (true, r.2)
    else
      let r2 := r.2.credentialsAt "oauthtokensecret"
      (QVariant.ne r2.1 (credentials.value "oauthtokensecret"), r2.2)
  else (false, w)

/-- The slot `TwitterAccount::onCredentialsLoaded( credentials )`. -/
def onCredentialsLoaded (credentials : QVariantHash) (w : World) : World :=
  let r := reloadCondition credentials w
  let reload := r.1
  let w1 : World := { r.2 with self := { r.2.self with m_credentials := credentials } }
  if reload && Account.enabled w1 then authenticate w1 else w1

/-- The function `TwitterAccount::setCredentials( credentials )`. -/
def setCredentials (credentials : QVariantHash) (w : World) : World :=
  let w1 : World := { w with self := { w.self with m_credentials := credentials } }
  w1.emit Effect.saveCredentials

/-- The function `TwitterAccount::connectionState()`.  The result is `none`
when the call dereferences a null `m_twitterSipPlugin`. -/
def connectionState (w : World) : Option ConnectionState :=
  match w.self.m_twitterSipPlugin with
  | none => none
  | some p => some (w.sipConnectionState p)

/-- The function `TwitterAccount::sipPlugin()`; the result is the returned
pointer, `m_twitterSipPlugin.data()`. -/
def sipPlugin (w : World) : Option ObjId × World :=
  if w.self.m_twitterSipPlugin.isNone then
    let a := w.allocObj
    let w1 := a.2.emit (Effect.sipPluginCreated a.1)
    let w2 : World := { w1 with self := { w1.self with m_twitterSipPlugin := some a.1 } }
    let w3 : World :=
      match w2.self.m_twitterSipPlugin with
      | some p => w2.emit (Effect.stateChangedForwarded p)
      | none => w2
    (w3.self.m_twitterSipPlugin, w3)
  else (w.self.m_twitterSipPlugin, w)

/-- The function `TwitterAccount::infoPlugin()`; the result is the pointer the
returned `InfoPluginPtr` wraps. -/
def infoPlugin (w : World) : Option ObjId × World :=
  let w1 : World :=
    if w.self.m_twitterInfoPlugin.isNone then
      let a := w.allocObj
      let w0 := a.2.emit (Effect.infoPluginCreated a.1)
      { w0 with self := { w0.self with m_twitterInfoPlugin := some a.1 } }
    else w
  (w1.self.m_twitterInfoPlugin, w1)

/-- The function `TwitterAccount::refreshTwitterAuth()`. -/
def refreshTwitterAuth (w : World) : Bool × World :=
  let w1 : World :=
    match w.self.m_twitterAuth with
    | some old => w.emit (Effect.oauthDeleted old.obj)
    | none => w
  let a := w1.allocObj
  let w2 := a.2.emit (Effect.oauthCreated a.1)
  let w3 : World := { w2 with self := { w2.self with m_twitterAuth := some ⟨a.1, [], []⟩ } }
  match w3.self.m_twitterAuth with
  | none => (false, w3)
  | some h =>
    let r := w3.credentialsAt "oauthtoken"
    let h1 : TomahawkOAuthTwitter := { h with oauthToken := toLatin1 r.1.toString }
    let r2 := r.2.credentialsAt "oauthtokensecret"
    let h2 : TomahawkOAuthTwitter := { h1 with oauthTokenSecret := toLatin1 r2.1.toString }
    (true, { r2.2 with self := { r2.2.self with m_twitterAuth := some h2 } })

/-- The first block of `authenticateSlot`: create the info plugin when there is
none and hand it to the info system when that has a worker thread. -/
def ensureInfoPlugin (w : World) : World :=
  if w.self.m_twitterInfoPlugin.isNone then
    let r := infoPlugin w
    if r.1.isSome && r.2.workerThread then
      let r1 := infoPlugin r.2
      let w1 : World :=
        match r1.1 with
        | some o => r1.2.emit (Effect.movedToWorkerThread o)
        | none => r1.2
      let r2 := infoPlugin w1
      match r2.1 with
      | some o => r2.2.emit (Effect.addInfoPlugin o)
      | none => r2.2
    else r.2
  else w

/-- The slot `TwitterAccount::authenticateSlot()`. -/
def authenticateSlot (w : World) : World :=
  let w0 := ensureInfoPlugin w
  if w0.self.m_isAuthenticating then w0
  else
    let r := w0.credentialsAt "oauthtoken"
    if r.1.toString.isEmpty then r.2
    else
      let r2 := r.2.credentialsAt "oauthtokensecret"
      if r2.1.toString.isEmpty then r2.2
      else
        let a := refreshTwitterAuth r2.2
        if a.1 then
          let w1 : World := { a.2 with self := { a.2.self with m_isAuthenticating := true } }
          let v := w1.allocObj
          let credVerifier : QTweetAccountVerifyCredentials := ⟨v.1, v.2.self.m_twitterAuth⟩
          let w2 : World :=
            { v.2 with pendingVerifications := v.2.pendingVerifications ++ [credVerifier] }
          w2.emit (Effect.verify credVerifier.obj)
        else a.2

/-- The function `TwitterAccount::deauthenticate()`. -/
def deauthenticate (w : World) : World :=
  let w1 : World :=
    if w.self.m_twitterSipPlugin.isSome then
      let r := sipPlugin w
      match r.1 with
      | some p => r.2.emit (Effect.disconnectPlugin p)
      | none => r.2
    else w
  let w2 : World :=
    match w1.self.m_twitterInfoPlugin with
    | some o => w1.emit (Effect.removeInfoPlugin o)
    | none => w1
  let w3 : World :=
    { w2 with self := { w2.self with m_isAuthenticated := false, m_isAuthenticating := false } }
  w3.emit Effect.nowDeauthenticated

/-- The slot `TwitterAccount::connectAuthVerifyReply( user )`. -/
def connectAuthVerifyReply (user : QTweetUser) (w : World) : World :=
  let w0 : World := { w with self := { w.self with m_isAuthenticating := false } }
  if user.id = 0 then deauthenticate w0
  else
    let config := (Account.configuration w0).insert "screenname" (QVariant.string user.screenName)
    let w1 := (Account.setConfiguration config w0).emit Effect.sync
    let r := sipPlugin w1
    let w2 : World :=
      match r.1 with
      | some p => r.2.emit (Effect.connectPlugin p)
      | none => r.2
    let w3 : World := { w2 with self := { w2.self with m_isAuthenticated := true } }
    w3.emit (Effect.nowAuthenticated w3.self.m_twitterAuth user)

/-- The function `sipPlugin` called a number of times in a row, results
discarded. -/
def sipPluginTimes : Nat → World → World
  | 0, w => w
  | n + 1, w => sipPluginTimes n (sipPlugin w).2

end TwitterAccount

/-! ## The account as a state machine -/

/-- The operations that drive an account: its slots and functions as called by
the host, and the delivery of the `parsedUser` signal of a credential
verifier. -/
inductive Op where
  | authenticateSlot
  | deauthenticate
  | onCredentialsLoaded (credentials : QVariantHash)
  | setCredentials (credentials : QVariantHash)
  | configDialogAuthedSignalSlot (authed : Bool)
  | parsedUser (credVerifier : QTweetAccountVerifyCredentials) (user : QTweetUser)

/-- One operation.  The signal `parsedUser` can only be delivered for a verifier
that was started and has not answered yet; the verifier then leaves the pending
list and the connected slot `connectAuthVerifyReply` runs. -/
def step : Op → World → Option World
  | .authenticateSlot, w => some (TwitterAccount.authenticateSlot w)
  | .deauthenticate, w => some (TwitterAccount.deauthenticate w)
  | .onCredentialsLoaded credentials, w =>
    some (TwitterAccount.onCredentialsLoaded credentials w)
  | .setCredentials credentials, w => some (TwitterAccount.setCredentials credentials w)
  | .configDialogAuthedSignalSlot authed, w =>
    some (TwitterAccount.configDialogAuthedSignalSlot authed w)
  | .parsedUser credVerifier user, w =>
    if credVerifier ∈ w.pendingVerifications then
      some (TwitterAccount.connectAuthVerifyReply user
        { w with pendingVerifications := w.pendingVerifications.erase credVerifier })
    else none

/-- A sequence of operations, `none` when one of them cannot happen. -/
def run : List Op → World → Option World
  | [], w => some w
  | op :: ops, w => (step op w).bind (run ops)

/-- The restriction under which the pending list stays short: `deauthenticate`
is not called while a verification is pending. -/
def admissible : Op → World → Bool
  | .deauthenticate, w => w.pendingVerifications.isEmpty
  | _, _ => true

/-- A sequence of operations each of which is admissible when it happens. -/
def runAdmissible : List Op → World → Option World
  | [], w => some w
  | op :: ops, w => if admissible op w then (step op w).bind (runAdmissible ops) else none

/-- The invariant behind the re-entrancy guard: at most one verification is
pending, and none is while `m_isAuthenticating` is false. -/
def pendingInvariant (w : World) : Prop :=
  w.pendingVerifications.length ≤ 1
  ∧ (w.self.m_isAuthenticating = false → w.pendingVerifications = [])

/-! ## Classification of effects -/

/-- The effects of the info plugin block of `authenticateSlot`. -/
def Effect.isInfoPlugin : Effect → Bool
  | .infoPluginCreated _ => true
  | .movedToWorkerThread _ => true
  | .addInfoPlugin _ => true
  | _ => false

/-- A credential verification being started. -/
def Effect.isVerify : Effect → Bool
  | .verify _ => true
  | _ => false

/-- The OAuth handle being deleted or created, the two things
`refreshTwitterAuth` does to the surroundings. -/
def Effect.isOAuthReplace : Effect → Bool
  | .oauthCreated _ => true
  | .oauthDeleted _ => true
  | _ => false

/-- The signal `nowAuthenticated`, whatever its arguments. -/
def Effect.isNowAuthenticated : Effect → Bool
  | .nowAuthenticated _ _ => true
  | _ => false

/-- The forwarding connection made by `sipPlugin`. -/
def Effect.isStateChangedForwarded : Effect → Bool
  | .stateChangedForwarded _ => true
  | _ => false

/-! ## Sample values -/

/-- A credentials hash holding a non-empty token pair. -/
def sampleCredentials : QVariantHash :=
  (QVariantHash.empty.insert "oauthtoken" (QVariant.string "tok")).insert
    "oauthtokensecret" (QVariant.string "sec")

/-- A credentials hash whose token is a variant holding the `double` NaN. -/
def sampleNaNCredentials : QVariantHash :=
  (QVariantHash.empty.insert "oauthtoken" QVariant.nan).insert
    "oauthtokensecret" (QVariant.string "sec")

/-- A freshly constructed, enabled account. -/
def sampleAccount : World :=
  TwitterAccount.TwitterAccount "twitteraccount_1" true QVariantHash.empty "" 0 true (fun _ => 0)

/-- The sample account after its credentials were set. -/
def sampleWithCredentials : World :=
  TwitterAccount.setCredentials sampleCredentials sampleAccount

/-- The sample account with a credential verification in flight. -/
def sampleAuthenticating : World :=
  TwitterAccount.authenticateSlot sampleWithCredentials

/-- A user record of a failed verification. -/
def sampleNoUser : QTweetUser := ⟨0, ""⟩

/-- A user record of a successful verification. -/
def sampleUser : QTweetUser := ⟨42, "tomahawk"⟩

/-! ## Basic facts -/

theorem effectsSince_of_trace (w w1 : World) (es : List Effect)
    (h : w1.trace = w.trace ++ es) : effectsSince w w1 = es := by
  simp [effectsSince, h]

theorem QVariantHash.index_fst (h : QVariantHash) (key : String) :
    (h.index key).1 = h.value key := by
  unfold QVariantHash.index QVariantHash.value
  cases h.find key <;> rfl

theorem QVariantHash.index_snd_of_find {h : QVariantHash} {key : String} {v : QVariant}
    (hv : h.find key = some v) : (h.index key).2 = h := by
  unfold QVariantHash.index
  rw [hv]

theorem QVariantHash.find_of_value_nonempty {h : QVariantHash} {key : String}
    (hv : (h.value key).toString.isEmpty = false) : ∃ v, h.find key = some v := by
  unfold QVariantHash.value at hv
  cases hf : h.find key with
  | some v => exact ⟨v, rfl⟩
  | none => rw [hf] at hv; simp [QVariant.toString, String.isEmpty] at hv

theorem QVariantHash.index_snd_of_nonempty {h : QVariantHash} {key : String}
    (hv : (h.value key).toString.isEmpty = false) : (h.index key).2 = h := by
  obtain ⟨v, hf⟩ := QVariantHash.find_of_value_nonempty hv
  exact QVariantHash.index_snd_of_find hf

/-- The info plugin block of `authenticateSlot` touches nothing but the info
plugin pointer, the allocator and the trace, where it records only info plugin
effects. -/
theorem TwitterAccount.ensureInfoPlugin_eq (w : World) :
    ∃ ip n es, TwitterAccount.ensureInfoPlugin w =
        { w with self := { w.self with m_twitterInfoPlugin := ip }
                 nextObj := n
                 trace := w.trace ++ es }
      ∧ w.nextObj ≤ n ∧ ∀ e ∈ es, e.isInfoPlugin = true := by
  unfold TwitterAccount.ensureInfoPlugin
  rcases w with ⟨⟨a1, a2, a3, a4, a5, a6, a7, a8, a9, a10, a11, a12, ip⟩, n, wt, cs, el, pv, tr⟩
  cases ip with
  | some o => exact ⟨some o, n, [], by simp, le_refl _, by simp⟩
  | none =>
    cases wt with
    | false =>
      exact ⟨some n, n + 1, [Effect.infoPluginCreated n],
        by simp [TwitterAccount.infoPlugin, World.allocObj, World.emit],
        Nat.le_succ n, by simp [Effect.isInfoPlugin]⟩
    | true =>
      exact ⟨some n, n + 1,
        [Effect.infoPluginCreated n, Effect.movedToWorkerThread n, Effect.addInfoPlugin n],
        by simp [TwitterAccount.infoPlugin, World.allocObj, World.emit],
        Nat.le_succ n, by simp [Effect.isInfoPlugin]⟩

theorem Effect.not_verify_of_isInfoPlugin {e : Effect} (h : e.isInfoPlugin = true) :
    e.isVerify = false ∧ e.isOAuthReplace = false := by
  cases e <;> simp_all [Effect.isInfoPlugin, Effect.isVerify, Effect.isOAuthReplace]

/-- With an authentication in flight `authenticateSlot` stops after the info
plugin block. -/
theorem TwitterAccount.authenticateSlot_eq_of_authenticating (w : World)
    (h : w.self.m_isAuthenticating = true) :
    TwitterAccount.authenticateSlot w = TwitterAccount.ensureInfoPlugin w := by
  obtain ⟨ip, n, es, heq, -, -⟩ := TwitterAccount.ensureInfoPlugin_eq w
  unfold TwitterAccount.authenticateSlot
  simp [heq, h]

/-- With no authentication in flight and an empty stored credential,
`authenticateSlot` does nothing after the info plugin block but the non-const
reads of `m_credentials`. -/
theorem TwitterAccount.authenticateSlot_eq_of_empty (w : World)
    (h : w.self.m_isAuthenticating = false)
    (hempty : (w.self.m_credentials.value "oauthtoken").toString.isEmpty = true
      ∨ (w.self.m_credentials.value "oauthtokensecret").toString.isEmpty = true) :
    ∃ stored, TwitterAccount.authenticateSlot w =
      { TwitterAccount.ensureInfoPlugin w with
        self := { (TwitterAccount.ensureInfoPlugin w).self with m_credentials := stored } } := by
  obtain ⟨ip, n, es, heq, -, -⟩ := TwitterAccount.ensureInfoPlugin_eq w
  by_cases ht : (w.self.m_credentials.value "oauthtoken").toString.isEmpty = true
  · refine ⟨(w.self.m_credentials.index "oauthtoken").2, ?_⟩
    unfold TwitterAccount.authenticateSlot
    simp [heq, h, World.credentialsAt, QVariantHash.index_fst, ht]
  · have hs : (w.self.m_credentials.value "oauthtokensecret").toString.isEmpty = true := by
      cases hempty with
      | inl h1 => exact absurd h1 ht
      | inr h2 => exact h2
    have ht2 : (w.self.m_credentials.value "oauthtoken").toString.isEmpty = false := by
      simpa using ht
    refine ⟨(w.self.m_credentials.index "oauthtokensecret").2, ?_⟩
    unfold TwitterAccount.authenticateSlot
    simp [heq, h, World.credentialsAt, QVariantHash.index_fst, ht2,
      QVariantHash.index_snd_of_nonempty ht2, hs]

/-- C2. Re-entrancy guard: while an authentication is in flight,
`authenticateSlot` starts no credential verification (the pending list is
unchanged and no `verify` effect is recorded), does not delete or create an
OAuth handle, and leaves the OAuth handle, both flags and the stored
credentials as they were. -/
theorem authenticateSlot_reentrancy_guard (w : World)
    (h : w.self.m_isAuthenticating = true) :
    (TwitterAccount.authenticateSlot w).pendingVerifications = w.pendingVerifications
    ∧ (∀ e ∈ effectsSince w (TwitterAccount.authenticateSlot w),
        e.isVerify = false ∧ e.isOAuthReplace = false)
    ∧ (TwitterAccount.authenticateSlot w).self.m_twitterAuth = w.self.m_twitterAuth
    ∧ (TwitterAccount.authenticateSlot w).self.m_isAuthenticated = w.self.m_isAuthenticated
    ∧ (TwitterAccount.authenticateSlot w).self.m_isAuthenticating = w.self.m_isAuthenticating
    ∧ (TwitterAccount.authenticateSlot w).self.m_credentials = w.self.m_credentials := by
  obtain ⟨ip, n, es, heq, -, hes⟩ := TwitterAccount.ensureInfoPlugin_eq w
  rw [TwitterAccount.authenticateSlot_eq_of_authenticating w h, heq]
  refine ⟨rfl, ?_, rfl, rfl, rfl, rfl⟩
  intro e he
  rw [effectsSince_of_trace _ _ es rfl] at he
  exact Effect.not_verify_of_isInfoPlugin (hes e he)

/-- The re-entrancy guard on the sample account with a verification in flight. -/
theorem authenticateSlot_reentrancy_guard_witness :
    sampleAuthenticating.self.m_isAuthenticating = true
    ∧ (TwitterAccount.authenticateSlot sampleAuthenticating).pendingVerifications
        = sampleAuthenticating.pendingVerifications :=
  ⟨by decide, (authenticateSlot_reentrancy_guard sampleAuthenticating (by decide)).1⟩

/-- C1. Empty-credential guard: with no authentication in flight and the stored
"oauthtoken" or "oauthtokensecret" missing or converting to the empty string
(the value of a missing key is the invalid variant, which converts to the
empty string), `authenticateSlot` starts no credential verification, does not
delete or create an OAuth handle and leaves the handle and both flags as they
were. -/
theorem authenticateSlot_empty_credentials (w : World)
    (h : w.self.m_isAuthenticating = false)
    (hempty : (w.self.m_credentials.value "oauthtoken").toString.isEmpty = true
      ∨ (w.self.m_credentials.value "oauthtokensecret").toString.isEmpty = true) :
    (TwitterAccount.authenticateSlot w).pendingVerifications = w.pendingVerifications
    ∧ (∀ e ∈ effectsSince w (TwitterAccount.authenticateSlot w),
        e.isVerify = false ∧ e.isOAuthReplace = false)
    ∧ (TwitterAccount.authenticateSlot w).self.m_twitterAuth = w.self.m_twitterAuth
    ∧ (TwitterAccount.authenticateSlot w).self.m_isAuthenticated = w.self.m_isAuthenticated
    ∧ (TwitterAccount.authenticateSlot w).self.m_isAuthenticating
        = w.self.m_isAuthenticating := by
  obtain ⟨ip, n, es, heq, -, hes⟩ := TwitterAccount.ensureInfoPlugin_eq w
  obtain ⟨stored, hslot⟩ := TwitterAccount.authenticateSlot_eq_of_empty w h hempty
  rw [hslot, heq]
  refine ⟨rfl, ?_, rfl, rfl, rfl⟩
  intro e he
  rw [effectsSince_of_trace _ _ es rfl] at he
  exact Effect.not_verify_of_isInfoPlugin (hes e he)

/-- The empty-credential guard on the sample account, which has no credentials. -/
theorem authenticateSlot_empty_credentials_witness :
    sampleAccount.self.m_isAuthenticating = false
    ∧ (sampleAccount.self.m_credentials.value "oauthtoken").toString.isEmpty = true
    ∧ (TwitterAccount.authenticateSlot sampleAccount).pendingVerifications
        = sampleAccount.pendingVerifications :=
  ⟨by decide, by decide,
    (authenticateSlot_empty_credentials sampleAccount (by decide) (Or.inl (by decide))).1⟩

/-- What `authenticateSlot` does after the info plugin block when no
authentication is in flight and both stored credentials are non-empty. -/
theorem TwitterAccount.authenticateSlot_eq_of_credentials (w : World)
    (h : w.self.m_isAuthenticating = false)
    (ht : (w.self.m_credentials.value "oauthtoken").toString.isEmpty = false)
    (hs : (w.self.m_credentials.value "oauthtokensecret").toString.isEmpty = false) :
    ∃ ip n es, (∀ e ∈ es, e.isInfoPlugin = true) ∧ w.nextObj ≤ n ∧
      TwitterAccount.authenticateSlot w =
        { w with
          self := { w.self with
            m_twitterInfoPlugin := ip
            m_isAuthenticating := true
            m_twitterAuth := some
              ⟨n, toLatin1 (w.self.m_credentials.value "oauthtoken").toString,
                toLatin1 (w.self.m_credentials.value "oauthtokensecret").toString⟩ }
          nextObj := n + 2
          pendingVerifications := w.pendingVerifications ++
            [⟨n + 1, some
              ⟨n, toLatin1 (w.self.m_credentials.value "oauthtoken").toString,
                toLatin1 (w.self.m_credentials.value "oauthtokensecret").toString⟩⟩]
          trace := w.trace ++ (es ++
            ((match w.self.m_twitterAuth with
              | some old => [Effect.oauthDeleted old.obj]
              | none => []) ++
            [Effect.oauthCreated n, Effect.verify (n + 1)])) } := by
  obtain ⟨ip, n, es, heq, hn, hes⟩ := TwitterAccount.ensureInfoPlugin_eq w
  refine ⟨ip, n, es, hes, hn, ?_⟩
  unfold TwitterAccount.authenticateSlot
  rw [heq]
  cases hauth : w.self.m_twitterAuth <;>
    simp [h, World.credentialsAt, QVariantHash.index_fst, ht, hs,
      QVariantHash.index_snd_of_nonempty ht, QVariantHash.index_snd_of_nonempty hs,
      TwitterAccount.refreshTwitterAuth, World.allocObj, World.emit, hauth]

theorem filter_isVerify_of_isInfoPlugin {es : List Effect}
    (hes : ∀ e ∈ es, e.isInfoPlugin = true) : es.filter Effect.isVerify = [] := by
  rw [List.filter_eq_nil_iff]
  intro e he
  simp [(Effect.not_verify_of_isInfoPlugin (hes e he)).1]

/-- C5. Starting OAuth authentication: with no authentication in flight and both
stored credentials converting to non-empty strings, `authenticateSlot` installs
an OAuth handle that was created by this call (its creation is recorded, its
object id was not handed out before, and the handle held before is deleted),
whose token and token secret are the
Latin-1 encodings of the stored strings; it starts exactly one credential
verification, on that handle; it sets `m_isAuthenticating` and leaves
`m_isAuthenticated` as it was. -/
theorem authenticateSlot_starts_verification (w : World)
    (h : w.self.m_isAuthenticating = false)
    (ht : (w.self.m_credentials.value "oauthtoken").toString.isEmpty = false)
    (hs : (w.self.m_credentials.value "oauthtokensecret").toString.isEmpty = false) :
    ∃ auth v,
      (TwitterAccount.authenticateSlot w).self.m_twitterAuth = some auth
      ∧ auth.oauthToken = toLatin1 (w.self.m_credentials.value "oauthtoken").toString
      ∧ auth.oauthTokenSecret
          = toLatin1 (w.self.m_credentials.value "oauthtokensecret").toString
      ∧ w.nextObj ≤ auth.obj
      ∧ Effect.oauthCreated auth.obj ∈ effectsSince w (TwitterAccount.authenticateSlot w)
      ∧ (∀ old, w.self.m_twitterAuth = some old →
          Effect.oauthDeleted old.obj ∈ effectsSince w (TwitterAccount.authenticateSlot w))
      ∧ (TwitterAccount.authenticateSlot w).pendingVerifications
          = w.pendingVerifications ++ [⟨v, some auth⟩]
      ∧ (effectsSince w (TwitterAccount.authenticateSlot w)).filter Effect.isVerify
          = [Effect.verify v]
      ∧ (TwitterAccount.authenticateSlot w).self.m_isAuthenticating = true
      ∧ (TwitterAccount.authenticateSlot w).self.m_isAuthenticated
          = w.self.m_isAuthenticated := by
  obtain ⟨ip, n, es, hes, hn, heq⟩ :=
    TwitterAccount.authenticateSlot_eq_of_credentials w h ht hs
  rw [heq]
  refine ⟨_, n + 1, rfl, rfl, rfl, hn, ?_, ?_, rfl, ?_, rfl, rfl⟩
  · rw [effectsSince_of_trace _ _ _ rfl]
    simp
  · intro old hold
    rw [effectsSince_of_trace _ _ _ rfl]
    simp [hold]
  · rw [effectsSince_of_trace _ _ _ rfl]
    cases w.self.m_twitterAuth <;>
      simp [List.filter_append, filter_isVerify_of_isInfoPlugin hes, Effect.isVerify]

/-- Starting a verification on the sample account with credentials set. -/
theorem authenticateSlot_starts_verification_witness :
    sampleWithCredentials.self.m_isAuthenticating = false
    ∧ (sampleWithCredentials.self.m_credentials.value "oauthtoken").toString.isEmpty = false
    ∧ (sampleWithCredentials.self.m_credentials.value "oauthtokensecret").toString.isEmpty
        = false
    ∧ ∃ auth v,
      (TwitterAccount.authenticateSlot sampleWithCredentials).self.m_twitterAuth = some auth
      ∧ (TwitterAccount.authenticateSlot sampleWithCredentials).pendingVerifications
          = sampleWithCredentials.pendingVerifications ++ [⟨v, some auth⟩] := by
  refine ⟨by decide, by decide, by decide, ?_⟩
  obtain ⟨auth, v, h1, -, -, -, -, -, h2, -⟩ :=
    authenticateSlot_starts_verification sampleWithCredentials (by decide) (by decide)
      (by decide)
  exact ⟨auth, v, h1, h2⟩

/-- What `deauthenticate` does, in one equation. -/
theorem TwitterAccount.deauthenticate_eq (w : World) :
    TwitterAccount.deauthenticate w =
      { w with
        self := { w.self with m_isAuthenticated := false, m_isAuthenticating := false }
        trace := w.trace ++
          ((match w.self.m_twitterSipPlugin with
            | some p => [Effect.disconnectPlugin p]
            | none => []) ++
          ((match w.self.m_twitterInfoPlugin with
            | some o => [Effect.removeInfoPlugin o]
            | none => []) ++
          [Effect.nowDeauthenticated])) } := by
  unfold TwitterAccount.deauthenticate
  cases hs : w.self.m_twitterSipPlugin <;> cases hi : w.self.m_twitterInfoPlugin <;>
    simp [TwitterAccount.sipPlugin, World.emit, hs, hi]

/-- C3. Deauthentication on verification failure: when `connectAuthVerifyReply`
receives a user whose id is 0, both flags end false; the effects are, in order,
a `disconnectPlugin` on the SIP plugin if one exists, a `removeInfoPlugin` if an
info plugin exists, and one `nowDeauthenticated`; so `nowDeauthenticated` is
emitted exactly once, `nowAuthenticated` is not emitted, no SIP plugin is
connected or created (the SIP plugin pointer is unchanged), and the account
configuration is unchanged. -/
theorem connectAuthVerifyReply_failure (w : World) (user : QTweetUser)
    (hid : user.id = 0) :
    (TwitterAccount.connectAuthVerifyReply user w).self.m_isAuthenticated = false
    ∧ (TwitterAccount.connectAuthVerifyReply user w).self.m_isAuthenticating = false
    ∧ effectsSince w (TwitterAccount.connectAuthVerifyReply user w) =
        (match w.self.m_twitterSipPlugin with
          | some p => [Effect.disconnectPlugin p]
          | none => []) ++
        ((match w.self.m_twitterInfoPlugin with
          | some o => [Effect.removeInfoPlugin o]
          | none => []) ++
        [Effect.nowDeauthenticated])
    ∧ (effectsSince w (TwitterAccount.connectAuthVerifyReply user w)).count
        Effect.nowDeauthenticated = 1
    ∧ (∀ e ∈ effectsSince w (TwitterAccount.connectAuthVerifyReply user w),
        e.isNowAuthenticated = false)
    ∧ (∀ p, w.self.m_twitterSipPlugin = some p →
        Effect.disconnectPlugin p ∈ effectsSince w (TwitterAccount.connectAuthVerifyReply user w))
    ∧ (∀ o, Effect.connectPlugin o ∉ effectsSince w (TwitterAccount.connectAuthVerifyReply user w)
        ∧ Effect.sipPluginCreated o ∉
            effectsSince w (TwitterAccount.connectAuthVerifyReply user w))
    ∧ (TwitterAccount.connectAuthVerifyReply user w).self.m_twitterSipPlugin
        = w.self.m_twitterSipPlugin
    ∧ (TwitterAccount.connectAuthVerifyReply user w).self.configuration
        = w.self.configuration := by
  have heq : TwitterAccount.connectAuthVerifyReply user w =
      TwitterAccount.deauthenticate
        { w with self := { w.self with m_isAuthenticating := false } } := by
    unfold TwitterAccount.connectAuthVerifyReply
    simp [hid]
  rw [heq, TwitterAccount.deauthenticate_eq]
  rw [effectsSince_of_trace _ _ _ rfl]
  refine ⟨rfl, rfl, rfl, ?_, ?_, ?_, ?_, rfl, rfl⟩
  · cases w.self.m_twitterSipPlugin <;> cases w.self.m_twitterInfoPlugin <;> simp
  · cases w.self.m_twitterSipPlugin <;> cases w.self.m_twitterInfoPlugin <;>
      simp [Effect.isNowAuthenticated]
  · intro p hp
    simp [hp]
  · intro o
    cases w.self.m_twitterSipPlugin <;> cases w.self.m_twitterInfoPlugin <;> simp

/-- A failed verification delivered to the sample account. -/
theorem connectAuthVerifyReply_failure_witness :
    sampleNoUser.id = 0
    ∧ (TwitterAccount.connectAuthVerifyReply sampleNoUser sampleAuthenticating).self.m_isAuthenticated
        = false
    ∧ (TwitterAccount.connectAuthVerifyReply sampleNoUser sampleAuthenticating).self.m_isAuthenticating
        = false :=
  ⟨by decide,
    (connectAuthVerifyReply_failure sampleAuthenticating sampleNoUser (by decide)).1,
    (connectAuthVerifyReply_failure sampleAuthenticating sampleNoUser (by decide)).2.1⟩

/-- What `sipPlugin` does, in one equation. -/
theorem TwitterAccount.sipPlugin_eq (w : World) :
    TwitterAccount.sipPlugin w =
      match w.self.m_twitterSipPlugin with
      | some p => (some p, w)
      | none =>
        (some w.nextObj,
          { w with
            self := { w.self with m_twitterSipPlugin := some w.nextObj }
            nextObj := w.nextObj + 1
            trace := w.trace ++
              [Effect.sipPluginCreated w.nextObj, Effect.stateChangedForwarded w.nextObj] }) := by
  unfold TwitterAccount.sipPlugin
  cases hs : w.self.m_twitterSipPlugin <;> simp [World.allocObj, World.emit, hs]

/-- What `connectAuthVerifyReply` does for a user with a non-zero id, in one
equation. -/
theorem TwitterAccount.connectAuthVerifyReply_eq_of_id (w : World) (user : QTweetUser)
    (hid : user.id ≠ 0) :
    TwitterAccount.connectAuthVerifyReply user w =
      { w with
        self := { w.self with
          m_isAuthenticating := false
          m_isAuthenticated := true
          configuration :=
            w.self.configuration.insert "screenname" (QVariant.string user.screenName)
          m_twitterSipPlugin := some (w.self.m_twitterSipPlugin.getD w.nextObj) }
        nextObj := (match w.self.m_twitterSipPlugin with
          | some _ => w.nextObj
          | none => w.nextObj + 1)
        trace := w.trace ++
          (Effect.sync ::
            ((match w.self.m_twitterSipPlugin with
              | some _ => []
              | none => [Effect.sipPluginCreated w.nextObj,
                  Effect.stateChangedForwarded w.nextObj]) ++
            [Effect.connectPlugin (w.self.m_twitterSipPlugin.getD w.nextObj),
              Effect.nowAuthenticated w.self.m_twitterAuth user])) } := by
  unfold TwitterAccount.connectAuthVerifyReply
  cases hs : w.self.m_twitterSipPlugin <;>
    simp [hid, Account.configuration, Account.setConfiguration, World.emit, hs,
      TwitterAccount.sipPlugin_eq]

/-- C6. Successful verification: for a user whose id is not 0,
`connectAuthVerifyReply` ends with `m_isAuthenticated` true and
`m_isAuthenticating` false; the configuration entry "screenname" holds the
screen name of the user and every other key keeps its entry; a SIP plugin
exists afterwards (the one that existed, or one created by this call) and
`connectPlugin` is called on it; `nowAuthenticated` is emitted exactly once,
with the user, and `nowDeauthenticated` is not emitted. -/
theorem connectAuthVerifyReply_success (w : World) (user : QTweetUser)
    (hid : user.id ≠ 0) :
    (TwitterAccount.connectAuthVerifyReply user w).self.m_isAuthenticated = true
    ∧ (TwitterAccount.connectAuthVerifyReply user w).self.m_isAuthenticating = false
    ∧ (TwitterAccount.connectAuthVerifyReply user w).self.configuration.find "screenname"
        = some (QVariant.string user.screenName)
    ∧ (∀ key, key ≠ "screenname" →
        (TwitterAccount.connectAuthVerifyReply user w).self.configuration.find key
          = w.self.configuration.find key)
    ∧ (∃ p, (TwitterAccount.connectAuthVerifyReply user w).self.m_twitterSipPlugin = some p
        ∧ (w.self.m_twitterSipPlugin = none ∨ w.self.m_twitterSipPlugin = some p)
        ∧ (w.self.m_twitterSipPlugin = none →
            Effect.sipPluginCreated p ∈
              effectsSince w (TwitterAccount.connectAuthVerifyReply user w))
        ∧ Effect.connectPlugin p ∈
            effectsSince w (TwitterAccount.connectAuthVerifyReply user w))
    ∧ (effectsSince w (TwitterAccount.connectAuthVerifyReply user w)).filter
          Effect.isNowAuthenticated
        = [Effect.nowAuthenticated
            (TwitterAccount.connectAuthVerifyReply user w).self.m_twitterAuth user]
    ∧ Effect.nowDeauthenticated ∉
        effectsSince w (TwitterAccount.connectAuthVerifyReply user w) := by
  rw [TwitterAccount.connectAuthVerifyReply_eq_of_id w user hid]
  rw [effectsSince_of_trace _ _ _ rfl]
  refine ⟨rfl, rfl, ?_, ?_, ?_, ?_, ?_⟩
  · simp [QVariantHash.insert]
  · intro key hkey
    simp [QVariantHash.insert, hkey]
  · cases hs : w.self.m_twitterSipPlugin <;> simp
  · cases hs : w.self.m_twitterSipPlugin <;> simp [Effect.isNowAuthenticated]
  · cases hs : w.self.m_twitterSipPlugin <;> simp

/-- A successful verification delivered to the sample account. -/
theorem connectAuthVerifyReply_success_witness :
    sampleUser.id ≠ 0
    ∧ (TwitterAccount.connectAuthVerifyReply sampleUser sampleAuthenticating).self.m_isAuthenticated
        = true
    ∧ (TwitterAccount.connectAuthVerifyReply sampleUser
        sampleAuthenticating).self.configuration.find "screenname"
        = some (QVariant.string "tomahawk") :=
  ⟨by decide,
    (connectAuthVerifyReply_success sampleAuthenticating sampleUser (by decide)).1,
    (connectAuthVerifyReply_success sampleAuthenticating sampleUser (by decide)).2.2.1⟩

/-- C7. Deferred authentication: `authenticate` changes no member of the account,
starts no verification, allocates nothing and records no effect; it appends
exactly one `authenticateSlot` invocation to the event loop queue. -/
theorem authenticate_only_schedules (w : World) :
    (TwitterAccount.authenticate w).self = w.self
    ∧ (TwitterAccount.authenticate w).pendingVerifications = w.pendingVerifications
    ∧ effectsSince w (TwitterAccount.authenticate w) = []
    ∧ (TwitterAccount.authenticate w).nextObj = w.nextObj
    ∧ (TwitterAccount.authenticate w).eventLoop = w.eventLoop ++ [Slot.authenticateSlot] := by
  refine ⟨rfl, rfl, ?_, rfl, rfl⟩
  simp [effectsSince, TwitterAccount.authenticate]

theorem QVariantHash.value_index_snd (h : QVariantHash) (k1 k2 : String) :
    ((h.index k1).2).value k2 = h.value k2 := by
  unfold QVariantHash.index
  cases hf : h.find k1 with
  | some v => rfl
  | none =>
    by_cases hk : k2 = k1
    · subst hk
      simp [QVariantHash.value, QVariantHash.insert, hf]
    · simp [QVariantHash.value, QVariantHash.insert, hk]

/-- The condition of `onCredentialsLoaded` as a value: it only ever changes the
stored credentials hash (through the non-const reads), and it holds exactly
when both incoming credentials are non-empty and, for one of the two keys, the
stored value compares unequal to the incoming one. -/
theorem TwitterAccount.reloadCondition_eq (credentials : QVariantHash) (w : World) :
    ∃ stored,
      TwitterAccount.reloadCondition credentials w =
        (decide ((credentials.value "oauthtoken").toString.isEmpty = false
            ∧ (credentials.value "oauthtokensecret").toString.isEmpty = false
            ∧ (QVariant.ne (w.self.m_credentials.value "oauthtoken") (credentials.value "oauthtoken") = true
              ∨ QVariant.ne (w.self.m_credentials.value "oauthtokensecret")
                  (credentials.value "oauthtokensecret") = true)),
          { w with self := { w.self with m_credentials := stored } }) := by
  unfold TwitterAccount.reloadCondition
  by_cases h1 : (credentials.value "oauthtoken").toString.isEmpty = false
  · by_cases h2 : (credentials.value "oauthtokensecret").toString.isEmpty = false
    · cases h3 : QVariant.ne (w.self.m_credentials.value "oauthtoken")
          (credentials.value "oauthtoken") with
      | false =>
        refine ⟨((w.self.m_credentials.index "oauthtoken").2.index "oauthtokensecret").2, ?_⟩
        simp [h1, h2, h3, World.credentialsAt, QVariantHash.index_fst,
          QVariantHash.value_index_snd]
      | true =>
        refine ⟨(w.self.m_credentials.index "oauthtoken").2, ?_⟩
        simp [h1, h2, h3, World.credentialsAt, QVariantHash.index_fst]
    · exact ⟨w.self.m_credentials, by simp [h1, h2]⟩
  · exact ⟨w.self.m_credentials, by simp [h1]⟩

/-- The two outcomes of `onCredentialsLoaded`. -/
theorem TwitterAccount.onCredentialsLoaded_cases (credentials : QVariantHash) (w : World) :
    ((w.self.enabled = true
        ∧ (credentials.value "oauthtoken").toString.isEmpty = false
        ∧ (credentials.value "oauthtokensecret").toString.isEmpty = false
        ∧ (QVariant.ne (w.self.m_credentials.value "oauthtoken") (credentials.value "oauthtoken") = true
          ∨ QVariant.ne (w.self.m_credentials.value "oauthtokensecret")
              (credentials.value "oauthtokensecret") = true)) →
      TwitterAccount.onCredentialsLoaded credentials w =
        TwitterAccount.authenticate
          { w with self := { w.self with m_credentials := credentials } })
    ∧ (¬ (w.self.enabled = true
        ∧ (credentials.value "oauthtoken").toString.isEmpty = false
        ∧ (credentials.value "oauthtokensecret").toString.isEmpty = false
        ∧ (QVariant.ne (w.self.m_credentials.value "oauthtoken") (credentials.value "oauthtoken") = true
          ∨ QVariant.ne (w.self.m_credentials.value "oauthtokensecret")
              (credentials.value "oauthtokensecret") = true)) →
      TwitterAccount.onCredentialsLoaded credentials w =
        { w with self := { w.self with m_credentials := credentials } }) := by
  obtain ⟨stored, hr⟩ := TwitterAccount.reloadCondition_eq credentials w
  unfold TwitterAccount.onCredentialsLoaded
  rw [hr]
  constructor
  · rintro ⟨he, h1, h2, h3⟩
    simp [Account.enabled, he, h1, h2, h3]
  · intro hn
    by_cases he : w.self.enabled = true
    · have hd : ¬ ((credentials.value "oauthtoken").toString.isEmpty = false
          ∧ (credentials.value "oauthtokensecret").toString.isEmpty = false
          ∧ (QVariant.ne (w.self.m_credentials.value "oauthtoken") (credentials.value "oauthtoken") = true
            ∨ QVariant.ne (w.self.m_credentials.value "oauthtokensecret")
                (credentials.value "oauthtokensecret") = true)) := fun h => hn ⟨he, h⟩
      simp only [decide_eq_false hd]
      simp
    · have he2 : w.self.enabled = false := by simpa using he
      simp [Account.enabled, he2]

/-- C8, amended. `onCredentialsLoaded` always replaces the stored credentials with
the incoming hash; it calls `authenticate` (one `authenticateSlot` invocation is
appended to the event loop queue) if and only if the account is enabled, the
incoming "oauthtoken" and "oauthtokensecret" both convert to non-empty strings,
and for one of the two keys the stored value compares unequal to the incoming
one under `QVariant::operator!=`; otherwise the queue is unchanged.  Delivering
the same hash a second time leaves the queue as the first delivery left it
whenever each of the two incoming values compares equal to itself. -/
theorem onCredentialsLoaded_reload_trigger (credentials : QVariantHash) (w : World) :
    (TwitterAccount.onCredentialsLoaded credentials w).self.m_credentials = credentials
    ∧ ((TwitterAccount.onCredentialsLoaded credentials w).eventLoop
          = w.eventLoop ++ [Slot.authenticateSlot]
        ↔ (w.self.enabled = true
          ∧ (credentials.value "oauthtoken").toString.isEmpty = false
          ∧ (credentials.value "oauthtokensecret").toString.isEmpty = false
          ∧ (QVariant.ne (w.self.m_credentials.value "oauthtoken")
                (credentials.value "oauthtoken") = true
            ∨ QVariant.ne (w.self.m_credentials.value "oauthtokensecret")
                (credentials.value "oauthtokensecret") = true)))
    ∧ ((w.self.enabled = true
          ∧ (credentials.value "oauthtoken").toString.isEmpty = false
          ∧ (credentials.value "oauthtokensecret").toString.isEmpty = false
          ∧ (QVariant.ne (w.self.m_credentials.value "oauthtoken")
                (credentials.value "oauthtoken") = true
            ∨ QVariant.ne (w.self.m_credentials.value "oauthtokensecret")
                (credentials.value "oauthtokensecret") = true)) →
        TwitterAccount.onCredentialsLoaded credentials w =
          TwitterAccount.authenticate
            { w with self := { w.self with m_credentials := credentials } })
    ∧ ((TwitterAccount.onCredentialsLoaded credentials w).eventLoop
          ≠ w.eventLoop ++ [Slot.authenticateSlot] →
        (TwitterAccount.onCredentialsLoaded credentials w).eventLoop = w.eventLoop)
    ∧ (QVariant.ne (credentials.value "oauthtoken") (credentials.value "oauthtoken") = false →
        QVariant.ne (credentials.value "oauthtokensecret")
            (credentials.value "oauthtokensecret") = false →
        (TwitterAccount.onCredentialsLoaded credentials
            (TwitterAccount.onCredentialsLoaded credentials w)).eventLoop
          = (TwitterAccount.onCredentialsLoaded credentials w).eventLoop) := by
  obtain ⟨hyes, hno⟩ := TwitterAccount.onCredentialsLoaded_cases credentials w
  have hcred : (TwitterAccount.onCredentialsLoaded credentials w).self.m_credentials
      = credentials := by
    by_cases hc : (w.self.enabled = true
          ∧ (credentials.value "oauthtoken").toString.isEmpty = false
          ∧ (credentials.value "oauthtokensecret").toString.isEmpty = false
          ∧ (QVariant.ne (w.self.m_credentials.value "oauthtoken")
                (credentials.value "oauthtoken") = true
            ∨ QVariant.ne (w.self.m_credentials.value "oauthtokensecret")
                (credentials.value "oauthtokensecret") = true))
    · rw [hyes hc]; rfl
    · rw [hno hc]
  refine ⟨hcred, ⟨?_, ?_⟩, hyes, ?_, ?_⟩
  · intro hq
    by_contra hc
    rw [hno hc] at hq
    have hlen := congrArg List.length hq
    simp at hlen
  · intro hc
    rw [hyes hc]; rfl
  · intro hq
    by_cases hc : (w.self.enabled = true
          ∧ (credentials.value "oauthtoken").toString.isEmpty = false
          ∧ (credentials.value "oauthtokensecret").toString.isEmpty = false
          ∧ (QVariant.ne (w.self.m_credentials.value "oauthtoken")
                (credentials.value "oauthtoken") = true
            ∨ QVariant.ne (w.self.m_credentials.value "oauthtokensecret")
                (credentials.value "oauthtokensecret") = true))
    · rw [hyes hc] at hq
      exact absurd rfl hq
    · rw [hno hc]
  · intro hself1 hself2
    obtain ⟨-, hno2⟩ := TwitterAccount.onCredentialsLoaded_cases credentials
      (TwitterAccount.onCredentialsLoaded credentials w)
    rw [hno2 (by rw [hcred]; simp [hself1, hself2])]

/-- The reload trigger on the sample account: the sample credentials are strings,
which compare equal to themselves, so a second delivery queues nothing. -/
theorem onCredentialsLoaded_reload_trigger_witness :
    QVariant.ne (sampleCredentials.value "oauthtoken") (sampleCredentials.value "oauthtoken")
        = false
    ∧ QVariant.ne (sampleCredentials.value "oauthtokensecret")
        (sampleCredentials.value "oauthtokensecret") = false
    ∧ (TwitterAccount.onCredentialsLoaded sampleCredentials sampleAccount).eventLoop
        = [Slot.authenticateSlot]
    ∧ (TwitterAccount.onCredentialsLoaded sampleCredentials
          (TwitterAccount.onCredentialsLoaded sampleCredentials sampleAccount)).eventLoop
        = (TwitterAccount.onCredentialsLoaded sampleCredentials sampleAccount).eventLoop :=
  ⟨by decide, by decide, by decide,
    (onCredentialsLoaded_reload_trigger sampleCredentials sampleAccount).2.2.2.2
      (by decide) (by decide)⟩

/-- C8, as stated, fails: with a NaN variant under "oauthtoken" the first delivery
to the sample account queues `authenticateSlot`; before the second delivery of
the same hash both stored values are the incoming ones, yet the second delivery
queues `authenticateSlot` again. -/
theorem onCredentialsLoaded_same_hash_requests_again :
    (TwitterAccount.onCredentialsLoaded sampleNaNCredentials sampleAccount).eventLoop
        = [Slot.authenticateSlot]
    ∧ (TwitterAccount.onCredentialsLoaded sampleNaNCredentials
          sampleAccount).self.m_credentials.value "oauthtoken"
        = sampleNaNCredentials.value "oauthtoken"
    ∧ (TwitterAccount.onCredentialsLoaded sampleNaNCredentials
          sampleAccount).self.m_credentials.value "oauthtokensecret"
        = sampleNaNCredentials.value "oauthtokensecret"
    ∧ (TwitterAccount.onCredentialsLoaded sampleNaNCredentials
          (TwitterAccount.onCredentialsLoaded sampleNaNCredentials sampleAccount)).eventLoop
        = [Slot.authenticateSlot, Slot.authenticateSlot]
    ∧ ¬ (∀ credentials w,
          (TwitterAccount.onCredentialsLoaded credentials
              (TwitterAccount.onCredentialsLoaded credentials w)).eventLoop
            = (TwitterAccount.onCredentialsLoaded credentials w).eventLoop) := by
  have h1 : (TwitterAccount.onCredentialsLoaded sampleNaNCredentials sampleAccount).eventLoop
      = [Slot.authenticateSlot] := by decide
  have h2 : (TwitterAccount.onCredentialsLoaded sampleNaNCredentials
        (TwitterAccount.onCredentialsLoaded sampleNaNCredentials sampleAccount)).eventLoop
      = [Slot.authenticateSlot, Slot.authenticateSlot] := by decide
  refine ⟨h1, by decide, by decide, h2, fun hall => ?_⟩
  have h3 := hall sampleNaNCredentials sampleAccount
  rw [h1, h2] at h3
  exact absurd h3 (by decide)

theorem effectsSince_self (w : World) : effectsSince w w = [] := by
  simp [effectsSince]

theorem TwitterAccount.sipPluginTimes_of_some (n : Nat) (w : World) (p : ObjId)
    (hp : w.self.m_twitterSipPlugin = some p) : TwitterAccount.sipPluginTimes n w = w := by
  induction n with
  | zero => rfl
  | succ k ih =>
    have h1 : TwitterAccount.sipPlugin w = (some p, w) := by
      rw [TwitterAccount.sipPlugin_eq, hp]
    simp [TwitterAccount.sipPluginTimes, h1, ih]

/-- C10. Lazy single SIP plugin: `sipPlugin` returns a non-null pointer, the one
stored in `m_twitterSipPlugin` afterwards; when a plugin exists it returns that
plugin and changes nothing; otherwise it creates exactly one plugin and
connects its `stateChanged` signal exactly once; a second call returns the
same plugin and changes nothing; over any number of calls in a row the
forwarding connection is made at most once. -/
theorem sipPlugin_lazy_single (w : World) :
    (TwitterAccount.sipPlugin w).1.isSome = true
    ∧ (TwitterAccount.sipPlugin w).1 = (TwitterAccount.sipPlugin w).2.self.m_twitterSipPlugin
    ∧ (∀ p, w.self.m_twitterSipPlugin = some p → TwitterAccount.sipPlugin w = (some p, w))
    ∧ (w.self.m_twitterSipPlugin = none →
        (TwitterAccount.sipPlugin w).1 = some w.nextObj
        ∧ effectsSince w (TwitterAccount.sipPlugin w).2 =
            [Effect.sipPluginCreated w.nextObj, Effect.stateChangedForwarded w.nextObj])
    ∧ TwitterAccount.sipPlugin (TwitterAccount.sipPlugin w).2
        = ((TwitterAccount.sipPlugin w).1, (TwitterAccount.sipPlugin w).2)
    ∧ ∀ n, ((effectsSince w (TwitterAccount.sipPluginTimes n w)).filter
        Effect.isStateChangedForwarded).length ≤ 1 := by
  have hone : ((effectsSince w (TwitterAccount.sipPlugin w).2).filter
      Effect.isStateChangedForwarded).length ≤ 1 := by
    rw [TwitterAccount.sipPlugin_eq]
    cases hs : w.self.m_twitterSipPlugin with
    | some p => simp [effectsSince_self]
    | none =>
      simp only []
      rw [effectsSince_of_trace _ _ _ rfl]
      simp [Effect.isStateChangedForwarded]
  have hsome : ∃ p, (TwitterAccount.sipPlugin w).2.self.m_twitterSipPlugin = some p := by
    rw [TwitterAccount.sipPlugin_eq]
    cases hs : w.self.m_twitterSipPlugin with
    | some p => exact ⟨p, hs⟩
    | none => exact ⟨w.nextObj, rfl⟩
  refine ⟨?_, ?_, ?_, ?_, ?_, ?_⟩
  · rw [TwitterAccount.sipPlugin_eq]
    cases hs : w.self.m_twitterSipPlugin <;> rfl
  · rw [TwitterAccount.sipPlugin_eq]
    cases hs : w.self.m_twitterSipPlugin with
    | some p => exact hs.symm
    | none => rfl
  · intro p hp
    rw [TwitterAccount.sipPlugin_eq, hp]
  · intro hs
    rw [TwitterAccount.sipPlugin_eq, hs]
    exact ⟨rfl, effectsSince_of_trace _ _ _ rfl⟩
  · rw [TwitterAccount.sipPlugin_eq (TwitterAccount.sipPlugin w).2]
    rw [TwitterAccount.sipPlugin_eq w]
    cases hs : w.self.m_twitterSipPlugin with
    | some p => simp [hs]
    | none => rfl
  · intro n
    cases n with
    | zero => simp [TwitterAccount.sipPluginTimes, effectsSince_self]
    | succ k =>
      obtain ⟨p, hp⟩ := hsome
      simp only [TwitterAccount.sipPluginTimes]
      rw [TwitterAccount.sipPluginTimes_of_some k _ p hp]
      exact hone

/-- C9. On a freshly constructed account `m_twitterSipPlugin` is null, so
`connectionState` dereferences a null pointer there; after a call of
`sipPlugin` it returns the connection state of the plugin. -/
theorem connectionState_null_on_fresh_account (accountId : String) (enabled : Bool)
    (configuration : QVariantHash) (accountFriendlyName : String) (nextObj : ObjId)
    (workerThread : Bool) (sipConnectionState : ObjId → ConnectionState) :
    (TwitterAccount.TwitterAccount accountId enabled configuration accountFriendlyName nextObj
        workerThread sipConnectionState).self.m_twitterSipPlugin = none
    ∧ TwitterAccount.connectionState
        (TwitterAccount.TwitterAccount accountId enabled configuration accountFriendlyName nextObj
          workerThread sipConnectionState) = none
    ∧ TwitterAccount.connectionState sampleAccount = none
    ∧ TwitterAccount.connectionState (TwitterAccount.sipPlugin sampleAccount).2 = some 0 :=
  ⟨rfl, rfl, rfl, rfl⟩

theorem TwitterAccount.ensureInfoPlugin_pending (w : World) :
    (TwitterAccount.ensureInfoPlugin w).pendingVerifications = w.pendingVerifications
    ∧ (TwitterAccount.ensureInfoPlugin w).self.m_isAuthenticating
        = w.self.m_isAuthenticating := by
  obtain ⟨ip, n, es, heq, -, -⟩ := TwitterAccount.ensureInfoPlugin_eq w
  rw [heq]
  exact ⟨rfl, rfl⟩

theorem TwitterAccount.authenticateSlot_pendingInvariant (w : World)
    (hinv : pendingInvariant w) : pendingInvariant (TwitterAccount.authenticateSlot w) := by
  obtain ⟨hp, hf⟩ := TwitterAccount.ensureInfoPlugin_pending w
  cases h : w.self.m_isAuthenticating with
  | true =>
    rw [TwitterAccount.authenticateSlot_eq_of_authenticating w h]
    unfold pendingInvariant
    rw [hp, hf]
    exact hinv
  | false =>
    by_cases hempty : (w.self.m_credentials.value "oauthtoken").toString.isEmpty = true
        ∨ (w.self.m_credentials.value "oauthtokensecret").toString.isEmpty = true
    · obtain ⟨stored, hslot⟩ := TwitterAccount.authenticateSlot_eq_of_empty w h hempty
      rw [hslot]
      unfold pendingInvariant
      simp only [hp, hf]
      exact hinv
    · have ht : (w.self.m_credentials.value "oauthtoken").toString.isEmpty = false := by
        simpa using fun hx => hempty (Or.inl hx)
      have hs : (w.self.m_credentials.value "oauthtokensecret").toString.isEmpty = false := by
        simpa using fun hx => hempty (Or.inr hx)
      obtain ⟨ip, n, es, -, -, heq⟩ :=
        TwitterAccount.authenticateSlot_eq_of_credentials w h ht hs
      rw [heq]
      unfold pendingInvariant
      simp [hinv.2 h]

theorem TwitterAccount.deauthenticate_pendingInvariant (w : World)
    (hp : w.pendingVerifications = []) : pendingInvariant (TwitterAccount.deauthenticate w) := by
  rw [TwitterAccount.deauthenticate_eq]
  unfold pendingInvariant
  simp [hp]

theorem TwitterAccount.onCredentialsLoaded_pendingInvariant (credentials : QVariantHash)
    (w : World) (hinv : pendingInvariant w) :
    pendingInvariant (TwitterAccount.onCredentialsLoaded credentials w) := by
  obtain ⟨hyes, hno⟩ := TwitterAccount.onCredentialsLoaded_cases credentials w
  by_cases hc : (w.self.enabled = true
        ∧ (credentials.value "oauthtoken").toString.isEmpty = false
        ∧ (credentials.value "oauthtokensecret").toString.isEmpty = false
        ∧ (QVariant.ne (w.self.m_credentials.value "oauthtoken") (credentials.value "oauthtoken") = true
          ∨ QVariant.ne (w.self.m_credentials.value "oauthtokensecret")
              (credentials.value "oauthtokensecret") = true))
  · rw [hyes hc]; exact hinv
  · rw [hno hc]; exact hinv

theorem TwitterAccount.configDialogAuthedSignalSlot_pending (authed : Bool) (w : World) :
    (TwitterAccount.configDialogAuthedSignalSlot authed w).pendingVerifications
        = w.pendingVerifications
    ∧ (TwitterAccount.configDialogAuthedSignalSlot authed w).self.m_isAuthenticating
        = w.self.m_isAuthenticating := by
  unfold TwitterAccount.configDialogAuthedSignalSlot
  simp only [World.emit, World.credentialsAt, Account.setAccountFriendlyName]
  split <;> exact ⟨rfl, rfl⟩

theorem TwitterAccount.connectAuthVerifyReply_pendingInvariant (user : QTweetUser) (w : World)
    (hp : w.pendingVerifications = []) :
    pendingInvariant (TwitterAccount.connectAuthVerifyReply user w) := by
  by_cases hid : user.id = 0
  · have heq : TwitterAccount.connectAuthVerifyReply user w =
        TwitterAccount.deauthenticate
          { w with self := { w.self with m_isAuthenticating := false } } := by
      unfold TwitterAccount.connectAuthVerifyReply
      simp [hid]
    rw [heq]
    exact TwitterAccount.deauthenticate_pendingInvariant _ hp
  · rw [TwitterAccount.connectAuthVerifyReply_eq_of_id w user hid]
    unfold pendingInvariant
    simp [hp]

theorem step_pendingInvariant (op : Op) (w w1 : World) (hinv : pendingInvariant w)
    (hadm : admissible op w = true) (hstep : step op w = some w1) : pendingInvariant w1 := by
  cases op with
  | authenticateSlot =>
    simp only [step, Option.some.injEq] at hstep
    subst hstep
    exact TwitterAccount.authenticateSlot_pendingInvariant w hinv
  | deauthenticate =>
    simp only [step, Option.some.injEq] at hstep
    subst hstep
    exact TwitterAccount.deauthenticate_pendingInvariant w (by simpa [admissible] using hadm)
  | onCredentialsLoaded credentials =>
    simp only [step, Option.some.injEq] at hstep
    subst hstep
    exact TwitterAccount.onCredentialsLoaded_pendingInvariant credentials w hinv
  | setCredentials credentials =>
    simp only [step, Option.some.injEq] at hstep
    subst hstep
    exact hinv
  | configDialogAuthedSignalSlot authed =>
    simp only [step, Option.some.injEq] at hstep
    subst hstep
    obtain ⟨hp, hf⟩ := TwitterAccount.configDialogAuthedSignalSlot_pending authed w
    unfold pendingInvariant
    rw [hp, hf]
    exact hinv
  | parsedUser credVerifier user =>
    simp only [step] at hstep
    split at hstep
    · rename_i hmem
      simp only [Option.some.injEq] at hstep
      subst hstep
      apply TwitterAccount.connectAuthVerifyReply_pendingInvariant
      have hlen := List.length_erase_of_mem hmem
      have hle := hinv.1
      have h0 : (w.pendingVerifications.erase credVerifier).length = 0 := by omega
      exact List.length_eq_zero.mp h0
    · exact absurd hstep (by simp)

theorem runAdmissible_pendingInvariant (ops : List Op) (w w1 : World)
    (hinv : pendingInvariant w) (hrun : runAdmissible ops w = some w1) :
    pendingInvariant w1 := by
  induction ops generalizing w with
  | nil =>
    simp only [runAdmissible, Option.some.injEq] at hrun
    subst hrun
    exact hinv
  | cons op ops ih =>
    simp only [runAdmissible] at hrun
    split at hrun
    · rename_i hadm
      cases hs : step op w with
      | none => rw [hs] at hrun; simp at hrun
      | some w2 =>
        rw [hs] at hrun
        exact ih w2 (step_pendingInvariant op w w2 hinv hadm hs) hrun
    · exact absurd hrun (by simp)

/-- C4, amended. In every state reached from a freshly constructed account by a
sequence of `authenticateSlot`, `onCredentialsLoaded`, `setCredentials`,
`configDialogAuthedSignalSlot`, `parsedUser` deliveries for pending verifiers,
and `deauthenticate` calls made only while no verification is pending, at most
one credential verification is pending. -/
theorem pending_at_most_one (accountId : String) (enabled : Bool)
    (configuration : QVariantHash) (accountFriendlyName : String) (nextObj : ObjId)
    (workerThread : Bool) (sipConnectionState : ObjId → ConnectionState)
    (ops : List Op) (w : World)
    (hrun : runAdmissible ops
      (TwitterAccount.TwitterAccount accountId enabled configuration accountFriendlyName nextObj
        workerThread sipConnectionState) = some w) :
    w.pendingVerifications.length ≤ 1 := by
  have hfresh : pendingInvariant
      (TwitterAccount.TwitterAccount accountId enabled configuration accountFriendlyName nextObj
        workerThread sipConnectionState) := ⟨Nat.zero_le 1, fun _ => rfl⟩
  exact (runAdmissible_pendingInvariant ops _ w hfresh hrun).1

/-- A run of the sample account that ends with one verification pending. -/
theorem pending_at_most_one_witness :
    runAdmissible [Op.setCredentials sampleCredentials, Op.authenticateSlot]
        (TwitterAccount.TwitterAccount "twitteraccount_1" true QVariantHash.empty "" 0 true
          (fun _ => 0)) = some sampleAuthenticating
    ∧ sampleAuthenticating.pendingVerifications.length ≤ 1 :=
  ⟨rfl, pending_at_most_one "twitteraccount_1" true QVariantHash.empty "" 0 true (fun _ => 0)
    [Op.setCredentials sampleCredentials, Op.authenticateSlot] sampleAuthenticating rfl⟩

/-- C4, as stated, fails: on the sample account, setting credentials, starting
an authentication, deauthenticating while the verification is pending and
starting an authentication again leaves two verifications pending. -/
theorem pending_verifications_not_bounded :
    (run [Op.setCredentials sampleCredentials, Op.authenticateSlot, Op.deauthenticate,
          Op.authenticateSlot] sampleAccount).map
        (fun w => w.pendingVerifications.length) = some 2
    ∧ ¬ (∀ ops w, run ops sampleAccount = some w → w.pendingVerifications.length ≤ 1) := by
  have h : (run [Op.setCredentials sampleCredentials, Op.authenticateSlot, Op.deauthenticate,
          Op.authenticateSlot] sampleAccount).map
        (fun w => w.pendingVerifications.length) = some 2 := by decide
  refine ⟨h, fun hall => ?_⟩
  cases hr : run [Op.setCredentials sampleCredentials, Op.authenticateSlot, Op.deauthenticate,
          Op.authenticateSlot] sampleAccount with
  | none => rw [hr] at h; simp at h
  | some w =>
    have hle := hall _ w hr
    rw [hr] at h
    simp at h
    omega

end Tomahawk.Accounts
